import Mathlib

/-!
# Latte-Dock `View`: a shallow embedding of `app/view/view.cpp`

The dock view is a `PlasmaQuick::ContainmentView` whose member functions read and
write the members of one `View` object and talk to collaborators (corona,
containment, positioner, effects, visibility manager, Wayland shell).  The
embedding passes the object explicitly: every member function becomes a function
`View → … → View`, and whatever leaves the object (a signal that is emitted, a
call into a collaborator whose code lives outside `view.cpp`) is appended to the
`log` of the object, in program order.

C++ `int` is modelled by `Int` with explicit two's complement wrapping to 32 bits.
-/

namespace Latte

/-! ## Machine integers -/

/-- The range of a C++ `int` (32 bit, two's complement). -/
def isInt32 (z : Int) : Prop := -2147483648 ≤ z ∧ z < 2147483648

instance (z : Int) : Decidable (isInt32 z) := by
  unfold isInt32; infer_instance

/-- Reduction of a mathematical integer to the `int` it is stored as. -/
def wrapInt32 (z : Int) : Int := (z + 2147483648) % 4294967296 - 2147483648

/-- The `+` of two `int`s. -/
def add32 (a b : Int) : Int := wrapInt32 (a + b)

/-- The `-` of two `int`s. -/
def sub32 (a b : Int) : Int := wrapInt32 (a - b)

/-! ## QRect

`QRect` stores the two corners `x1, y1, x2, y2`; the four-argument constructor
takes a position and a size, `width()` and `height()` are recomputed from the
corners, and `operator==` compares the four coordinates. -/

structure QRect where
  x1 : Int
  y1 : Int
  x2 : Int
  y2 : Int
deriving DecidableEq, Repr

namespace QRect

/-- Embedding of `QRect()`: the null rectangle. -/
def null : QRect := ⟨0, 0, -1, -1⟩

/-- Embedding of `QRect(left, top, width, height)`: `x2 = left + width - 1`, `y2 = top + height - 1`. -/
def ofXYWH (left top width height : Int) : QRect :=
  ⟨left, top, sub32 (add32 left width) 1, sub32 (add32 top height) 1⟩

/-- Embedding of `QRect::x()`. -/
def x (r : QRect) : Int := r.x1

/-- Embedding of `QRect::y()`. -/
def y (r : QRect) : Int := r.y1

/-- Embedding of `QRect::width()`: `x2 - x1 + 1`. -/
def width (r : QRect) : Int := add32 (sub32 r.x2 r.x1) 1

/-- Embedding of `QRect::height()`: `y2 - y1 + 1`. -/
def height (r : QRect) : Int := add32 (sub32 r.y2 r.y1) 1

end QRect

/-! ## Enumerations of the toolkit and of `liblatte2/types.h` -/

/-- Embedding of `Latte::Types::Visibility`. -/
inductive Visibility
  | None
  | AlwaysVisible
  | AutoHide
  | DodgeActive
  | DodgeMaximized
  | DodgeAllWindows
  | WindowsGoBelow
deriving DecidableEq, Repr

/-- Embedding of `Latte::Types::ViewType`. -/
inductive ViewType
  | DockView
  | PanelView
deriving DecidableEq, Repr

/-- The `(int)` cast of a `Latte::Types::ViewType`. -/
def ViewType.toInt : ViewType → Int
  | .DockView => 0
  | .PanelView => 1

/-- Embedding of `Plasma::Types::FormFactor`. -/
inductive FormFactor
  | Planar
  | MediaCenter
  | Horizontal
  | Vertical
  | Application
deriving DecidableEq, Repr

/-- Embedding of `Plasma::Types::ItemStatus`, in declaration order (`UnknownStatus = 0`). -/
inductive ItemStatus
  | UnknownStatus
  | PassiveStatus
  | ActiveStatus
  | NeedsAttentionStatus
  | RequiresAttentionStatus
  | AcceptingInputStatus
  | HiddenStatus
deriving DecidableEq, Repr

/-- The integer value of a `Plasma::Types::ItemStatus`. -/
def ItemStatus.toNat : ItemStatus → Nat
  | .UnknownStatus => 0
  | .PassiveStatus => 1
  | .ActiveStatus => 2
  | .NeedsAttentionStatus => 3
  | .RequiresAttentionStatus => 4
  | .AcceptingInputStatus => 5
  | .HiddenStatus => 6

/-- Embedding of `KWayland::Client::PlasmaShellSurface::Role`. -/
inductive Role
  | Normal
  | Desktop
  | Panel
  | OnScreenDisplay
deriving DecidableEq, Repr

/-- Embedding of `KWayland::Client::PlasmaShellSurface::PanelBehavior`. -/
inductive PanelBehavior
  | AlwaysVisible
  | AutoHide
  | WindowsCanCover
  | WindowsGoBelow
deriving DecidableEq, Repr

/-- Embedding of `QPlatformSurfaceEvent::SurfaceEventType`. -/
inductive SurfaceEventType
  | SurfaceCreated
  | SurfaceAboutToBeDestroyed
deriving DecidableEq, Repr

/-- A `QEvent` as far as `View::event` looks at it: its `type()`, and for the type
`PlatformSurface` the outcome of the `dynamic_cast` to `QPlatformSurfaceEvent`
(`none` when the cast fails). -/
inductive QEvent
  | Leave
  | PlatformSurface (pe : Option SurfaceEventType)
  | Other (type : Nat)
deriving DecidableEq, Repr

/-! ## KConfigGroup

The containment's configuration group: raw text entries addressed by key.
`readEntry` with a `bool` default yields the default when the key is absent and
otherwise reads every text but `false`, `no`, `off`, `0` (in any letter case) as
`true`; `writeEntry` stores a `bool` as `true` or `false` and an `int` in decimal. -/

structure KConfigGroup where
  entries : List (String × String)
deriving DecidableEq, Repr

namespace KConfigGroup

/-- The raw text stored under `key`, if any. -/
def lookupData (g : KConfigGroup) (key : String) : Option String :=
  g.entries.lookup key

/-- The conversion of stored text to `bool`. -/
def textToBool (s : String) : Bool :=
  let lower := s.data.map Char.toLower
  !(lower = "false".data || lower = "no".data || lower = "off".data || lower = "0".data)

/-- Embedding of `KConfigGroup::readEntry(key, bool aDefault)`. -/
def readEntryBool (g : KConfigGroup) (key : String) (aDefault : Bool) : Bool :=
  match g.lookupData key with
  | none => aDefault
  | some s => textToBool s

/-- Replacement of the text stored under `key`, or insertion when the key is absent. -/
def putData (key value : String) : List (String × String) → List (String × String)
  | [] => [(key, value)]
  | (k, x) :: rest =>
    if k == key then (key, value) :: rest else (k, x) :: putData key value rest

/-- Embedding of `KConfigGroup::writeEntry(key, bool value)`. -/
def writeEntryBool (g : KConfigGroup) (key : String) (value : Bool) : KConfigGroup :=
  ⟨putData key (if value then "true" else "false") g.entries⟩

/-- Embedding of `KConfigGroup::writeEntry(key, int value)`. -/
def writeEntryInt (g : KConfigGroup) (key : String) (value : Int) : KConfigGroup :=
  ⟨putData key (toString value) g.entries⟩

end KConfigGroup

/-! ## Collaborators of the view -/

/-- A `Plasma::Applet` of the containment: its id, the plugin id and the
`X-Plasma-Provides` string list of its plugin metadata. -/
structure Applet where
  id : Nat
  pluginId : String
  provides : List String
deriving DecidableEq, Repr

/-- The `Plasma::Containment` shown by the view. -/
structure Containment where
  id : Nat
  config : KConfigGroup
  applets : List Applet
  status : ItemStatus
  isUserConfiguring : Bool
  formFactor : FormFactor
deriving DecidableEq, Repr

/-- Embedding of `KWayland::Client::PlasmaShell`, the Wayland interface held by the corona. -/
structure PlasmaShell where
  name : Nat
deriving DecidableEq, Repr

/-- Embedding of `KWayland::Client::Surface`, the Wayland surface of a window. -/
structure Surface where
  wlSurface : Nat
deriving DecidableEq, Repr

/-- Embedding of `KWayland::Client::PlasmaShellSurface`. -/
structure PlasmaShellSurface where
  surface : Surface
  skipTaskbar : Bool
  role : Role
  panelBehavior : PanelBehavior
deriving DecidableEq, Repr

/-- Embedding of `PlasmaShell::createSurface(surface, parent)`: a shell surface for `surface`
with the protocol defaults. -/
def PlasmaShell.createSurface (_interface : PlasmaShell) (s : Surface) : PlasmaShellSurface :=
  { surface := s, skipTaskbar := false, role := Role.Normal,
    panelBehavior := PanelBehavior.AlwaysVisible }

/-- Embedding of `PlasmaShellSurface::setSkipTaskbar`. -/
def PlasmaShellSurface.setSkipTaskbar (s : PlasmaShellSurface) (skip : Bool) :
    PlasmaShellSurface :=
  { s with skipTaskbar := skip }

/-- Embedding of `PlasmaShellSurface::setRole`. -/
def PlasmaShellSurface.setRole (s : PlasmaShellSurface) (role : Role) : PlasmaShellSurface :=
  { s with role := role }

/-- Embedding of `PlasmaShellSurface::setPanelBehavior`. -/
def PlasmaShellSurface.setPanelBehavior (s : PlasmaShellSurface) (behavior : PanelBehavior) :
    PlasmaShellSurface :=
  { s with panelBehavior := behavior }

/-- The corona returned by `corona()`: a plain `Plasma::Corona`, or a `Latte::Corona`
(the `qobject_cast` succeeds) with its `waylandCoronaInterface()`. -/
inductive Corona
  | Plasma
  | Latte (waylandCoronaInterface : Option PlasmaShell)
deriving DecidableEq, Repr

/-- Embedding of `ViewPart::VisibilityManager` (visibilitymanager.h): the members the view reads
and writes, with the initial values of the class declaration. -/
structure VisibilityManager where
  m_mode : Visibility := Visibility.None
  m_isHidden : Bool := false
  m_blockHiding : Bool := false
deriving DecidableEq, Repr

namespace VisibilityManager

/-- Embedding of `VisibilityManager::mode()`. -/
def mode (vm : VisibilityManager) : Visibility := vm.m_mode

/-- Embedding of `VisibilityManager::blockHiding()`. -/
def blockHiding (vm : VisibilityManager) : Bool := vm.m_blockHiding

/-- Modelled from the spec: the body of `VisibilityManager::setBlockHiding` is in
visibilitymanager.cpp, which is not among the sources.  The header declares it as
the WRITE accessor of the property `blockHiding` (READ `blockHiding()`, member
`m_blockHiding`), so it is modelled as that property write. -/
def setBlockHiding (vm : VisibilityManager) (blockHiding : Bool) : VisibilityManager :=
  { vm with m_blockHiding := blockHiding }

end VisibilityManager

/-- Embedding of `ViewPart::WindowsTracker`, created by the view once it has a containment. -/
structure WindowsTracker where
  enabled : Bool := true
deriving DecidableEq, Repr

/-- The object behind `m_configView` (a `QPointer<PlasmaQuick::ConfigView>`): a plain
`PlasmaQuick::ConfigView`, or a `ViewPart::PrimaryConfigView` (the `qobject_cast`
succeeds) with its `sticker()`; both with the window's `isVisible()`. -/
inductive ConfigView
  | Plain (isVisible : Bool)
  | Primary (sticker : Bool) (isVisible : Bool)
deriving DecidableEq, Repr

/-! ## What leaves the object -/

/-- Signals emitted by the view (on itself, or on the corona). -/
inductive Signal
  | localGeometryChanged
  | absGeometryChanged (geometry : QRect)
  | byPassWMChanged
  | onPrimaryChanged
  | isPreferredForShortcutsChanged
  | typeChanged
  | alternativesIsShownChanged
  | eventTriggered (e : QEvent)
  | coronaAvailableScreenRectChanged
  | coronaAvailableScreenRegionChanged
deriving DecidableEq, Repr

/-- Calls into collaborators whose code is outside `view.cpp`. -/
inductive Call
  | positionerSyncGeometry
  | positionerReconsiderScreen
  | effectsUpdateShadows
  | effectsClearShadows
  | engineTrimComponentCache
  | createSurface (s : Surface)
  | deleteShellSurface
  | configSync
  | connectContainmentStatusChanged
  | containmentViewEvent (e : QEvent)
deriving DecidableEq, Repr

/-- One entry of the log. -/
inductive Event
  | emitted (s : Signal)
  | called (c : Call)
deriving DecidableEq, Repr

/-- The connections made by `View::init()` that stay inside the view. -/
structure Connections where
  /-- The signals byPassWMChanged, isPreferredForShortcutsChanged, onPrimaryChanged and
  typeChanged are connected to `View::saveConfig`. -/
  changedToSaveConfig : Bool
  /-- The corona's availableScreenRectChanged is connected to
  `View::availableScreenRectChanged`. -/
  coronaAvailableScreenRect : Bool
deriving DecidableEq, Repr

/-! ## The view object -/

structure View where
  /-- Value of `QWindow::x()`. -/
  x : Int
  /-- Value of `QWindow::y()`. -/
  y : Int
  /-- Value of `QWindow::flags()`. -/
  flags : Nat
  /-- Value of `KWayland::Client::Surface::fromWindow(this)`. -/
  windowSurface : Option Surface
  /-- Value of `ContainmentView::corona()`. -/
  corona : Option Corona
  /-- Value of `ContainmentView::containment()`. -/
  containment : Option Containment
  m_localGeometry : QRect
  m_absGeometry : QRect
  m_shellSurface : Option PlasmaShellSurface
  m_visibility : Option VisibilityManager
  m_windowsTracker : Option WindowsTracker
  m_configView : Option ConfigView
  m_alternativesIsShown : Bool
  m_inDelete : Bool
  m_byPassWM : Bool
  m_onPrimary : Bool
  m_isPreferredForShortcuts : Bool
  m_type : ViewType
  connections : Connections
  log : List Event
deriving DecidableEq, Repr

/-! ## Window flags (`Qt::WindowType`) -/

def FramelessWindowHint : Nat := 0x00000800
def WindowStaysOnTopHint : Nat := 0x00040000
def NoDropShadowWindowHint : Nat := 0x40000000
def WindowDoesNotAcceptFocus : Nat := 0x00200000
def BypassWindowManagerHint : Nat := 0x00000400

/-- Embedding of `QFlags::testFlag`. -/
def testFlag (flags flag : Nat) : Bool :=
  (flags &&& flag) == flag && (flag != 0 || flags == flag)

/-! ## QMimeData and QString::split -/

/-- A `QMimeData`: its formats, each with its data as the `QString` the data
converts to. -/
structure QMimeData where
  formats : List (String × String)
deriving DecidableEq, Repr

/-- Embedding of `QMimeData::hasFormat`. -/
def QMimeData.hasFormat (m : QMimeData) (mimeType : String) : Bool :=
  (m.formats.lookup mimeType).isSome

/-- Embedding of `QMimeData::data`, converted to `QString`; empty for a format that is not there. -/
def QMimeData.data (m : QMimeData) (mimeType : String) : String :=
  (m.formats.lookup mimeType).getD ""

/-- The scan of `QString::split(sep, QString::SkipEmptyParts)`: `cur` holds, in
reverse, the characters read since the last separator; a part is appended at each
separator and at the end of the text, unless it is empty. -/
def splitSkipEmptyPartsFrom (sep : Char) : List Char → List Char → List (List Char)
  | [], cur => if cur = [] then [] else [cur.reverse]
  | c :: rest, cur =>
    if c = sep then
      (if cur = [] then [] else [cur.reverse]) ++ splitSkipEmptyPartsFrom sep rest []
    else
      splitSkipEmptyPartsFrom sep rest (c :: cur)

/-- Embedding of `QString::split(sep, QString::SkipEmptyParts)`. -/
def splitSkipEmptyParts (sep : Char) (text : String) : List String :=
  (splitSkipEmptyPartsFrom sep text.data []).map String.mk

namespace View

/-! ## Accessors -/

def localGeometry (v : View) : QRect := v.m_localGeometry
def absGeometry (v : View) : QRect := v.m_absGeometry
def surface (v : View) : Option PlasmaShellSurface := v.m_shellSurface
def visibility (v : View) : Option VisibilityManager := v.m_visibility
def inDelete (v : View) : Bool := v.m_inDelete
def byPassWM (v : View) : Bool := v.m_byPassWM
def onPrimary (v : View) : Bool := v.m_onPrimary
def isPreferredForShortcuts (v : View) : Bool := v.m_isPreferredForShortcuts
def alternativesIsShown (v : View) : Bool := v.m_alternativesIsShown
def type (v : View) : ViewType := v.m_type

/-- Embedding of `ContainmentView::formFactor()`: the containment's, `Planar` without one. -/
def formFactor (v : View) : FormFactor :=
  match v.containment with
  | none => FormFactor.Planar
  | some c => c.formFactor

/-- A call into a collaborator, recorded in the log. -/
def call (v : View) (c : Call) : View :=
  { v with log := v.log ++ [Event.called c] }

/-! ## Slots reached through the connections of `init()` -/

/-- Embedding of `View::availableScreenRectChanged()`. -/
def availableScreenRectChanged (v : View) : View :=
  if v.m_inDelete then v
  else if v.formFactor = FormFactor.Vertical then v.call Call.positionerSyncGeometry
  else v

/-- Embedding of `View::saveConfig()`. -/
def saveConfig (v : View) : View :=
  match v.containment with
  | none => v
  | some c =>
    let config := c.config
    let config := config.writeEntryBool "onPrimary" v.onPrimary
    let config := config.writeEntryBool "byPassWM" v.byPassWM
    let config := config.writeEntryBool "isPreferredForShortcuts" v.isPreferredForShortcuts
    let config := config.writeEntryInt "viewType" v.m_type.toInt
    ({ v with containment := some { c with config := config } }).call Call.configSync

/-- The `emit` of a signal: the signal is recorded, then the slots of this file that
`init()` connected to it run (the connections are direct, within one thread). -/
def emit (v : View) (s : Signal) : View :=
  let v := { v with log := v.log ++ [Event.emitted s] }
  match s with
  | Signal.byPassWMChanged | Signal.isPreferredForShortcutsChanged
  | Signal.onPrimaryChanged | Signal.typeChanged =>
    if v.connections.changedToSaveConfig then v.saveConfig else v
  | Signal.coronaAvailableScreenRectChanged =>
    if v.connections.coronaAvailableScreenRect then v.availableScreenRectChanged else v
  | _ => v

/-! ## Construction -/

/-- The window flags computed in the constructor `View::View(corona, targetScreen, byPassWM)`. -/
def constructorFlags (byPassWM : Bool) : Nat :=
  let flags := FramelessWindowHint
               ||| WindowStaysOnTopHint
               ||| NoDropShadowWindowHint
               ||| WindowDoesNotAcceptFocus
  if byPassWM then flags ||| BypassWindowManagerHint else flags

/-- Embedding of `View::View(corona, targetScreen, byPassWM)` as far as the object itself goes:
`members` is the object with its members as the class declaration (view.h)
initialises them; the constructor sets the corona and the window flags. -/
def ctor (members : View) (corona : Option Corona) (byPassWM : Bool) : View :=
  { members with corona := corona, flags := constructorFlags byPassWM }

/-! ## Geometry -/

/-- Embedding of `View::updateAbsDockGeometry(bool bypassChecks)`. -/
def updateAbsDockGeometry (v : View) (bypassChecks : Bool) : View :=
  let absGeometry := QRect.ofXYWH (add32 v.x v.m_localGeometry.x) (add32 v.y v.m_localGeometry.y)
                       v.m_localGeometry.width v.m_localGeometry.height
  if v.m_absGeometry = absGeometry ∧ bypassChecks = false then v
  else
    let v := { v with m_absGeometry := absGeometry }
    let v := v.emit (Signal.absGeometryChanged v.m_absGeometry)
    if v.visibility.isSome ∧ v.corona.isSome
        ∧ v.visibility.map VisibilityManager.mode = some Visibility.AlwaysVisible then
      let v := v.emit Signal.coronaAvailableScreenRectChanged
      v.emit Signal.coronaAvailableScreenRegionChanged
    else v

/-- Embedding of `View::setLocalGeometry(const QRect &geometry)`. -/
def setLocalGeometry (v : View) (geometry : QRect) : View :=
  if v.m_localGeometry = geometry then v
  else
    let v := { v with m_localGeometry := geometry }
    let v := v.emit Signal.localGeometryChanged
    v.updateAbsDockGeometry false

/-! ## Configuration -/

/-- Embedding of `View::setByPassWM(bool bypass)`. -/
def setByPassWM (v : View) (bypass : Bool) : View :=
  if v.m_byPassWM = bypass then v
  else
    let v := { v with m_byPassWM := bypass }
    v.emit Signal.byPassWMChanged

/-- Embedding of `View::setOnPrimary(bool flag)`. -/
def setOnPrimary (v : View) (flag : Bool) : View :=
  if v.m_onPrimary = flag then v
  else
    let v := { v with m_onPrimary := flag }
    v.emit Signal.onPrimaryChanged

/-- Embedding of `View::setType(Types::ViewType type)`. -/
def setType (v : View) (type : ViewType) : View :=
  if v.m_type = type then v
  else
    let v := { v with m_type := type }
    v.emit Signal.typeChanged

/-- Embedding of `View::restoreConfig()`. -/
def restoreConfig (v : View) : View :=
  match v.containment with
  | none => v
  | some c =>
    let config := c.config
    let v := { v with m_onPrimary := config.readEntryBool "onPrimary" true }
    let v := { v with m_byPassWM := config.readEntryBool "byPassWM" false }
    let v := { v with m_isPreferredForShortcuts :=
                        config.readEntryBool "isPreferredForShortcuts" false }
    let v := v.emit Signal.onPrimaryChanged
    v.emit Signal.byPassWMChanged

/-- Embedding of `View::reconsiderScreen()`: handed to the positioner. -/
def reconsiderScreen (v : View) : View :=
  v.call Call.positionerReconsiderScreen

/-- The handler the constructor connects to `containmentChanged`; `byPassWM` is the
constructor argument, captured by value.  A new `VisibilityManager` and a new
`WindowsTracker` start with the member values of their class declarations. -/
def containmentChangedHandler (byPassWM : Bool) (v : View) : View :=
  match v.containment with
  | none => v
  | some _ =>
    let v := v.restoreConfig
    let v := v.setByPassWM byPassWM
    let v := v.reconsiderScreen
    let v := if v.m_windowsTracker.isNone then { v with m_windowsTracker := some {} } else v
    let v := if v.m_visibility.isNone then { v with m_visibility := some {} } else v
    v.call Call.connectContainmentStatusChanged

/-! ## Wayland -/

/-- Embedding of `View::setupWaylandIntegration()`. -/
def setupWaylandIntegration (v : View) : View :=
  if v.m_shellSurface.isSome then v
  else
    match v.corona with
    | some (Corona.Latte waylandInterface) =>
      match waylandInterface with
      | none => v
      | some interface =>
        match v.windowSurface with
        | none => v
        | some s =>
          let shellSurface := interface.createSurface s
          let v := v.call (Call.createSurface s)
          let shellSurface := shellSurface.setSkipTaskbar true
          let shellSurface := shellSurface.setRole Role.Panel
          let shellSurface := shellSurface.setPanelBehavior PanelBehavior.WindowsGoBelow
          { v with m_shellSurface := some shellSurface }
    | _ => v

/-- Embedding of `View::event(QEvent *e)`; the result of the base class's `event` is the base
class's business, the call is recorded. -/
def event (v : View) (e : QEvent) : View :=
  let v :=
    if v.m_inDelete = false then
      let v := v.emit (Signal.eventTriggered e)
      match e with
      | QEvent.Leave => v.call Call.engineTrimComponentCache
      | QEvent.PlatformSurface (some SurfaceEventType.SurfaceCreated) =>
        let v := v.setupWaylandIntegration
        if v.m_shellSurface.isSome then
          let v := v.call Call.positionerSyncGeometry
          v.call Call.effectsUpdateShadows
        else v
      | QEvent.PlatformSurface (some SurfaceEventType.SurfaceAboutToBeDestroyed) =>
        if v.m_shellSurface.isSome then
          let v := v.call Call.deleteShellSurface
          let v := { v with m_shellSurface := none }
          v.call Call.effectsClearShadows
        else v
      | _ => v
    else v
  v.call (Call.containmentViewEvent e)

/-! ## Hiding -/

/-- Embedding of `View::setBlockHiding(bool block)`. -/
def setBlockHiding (v : View) (block : Bool) : View :=
  if block = false then
    let stickyVisibleConfigView :=
      match v.m_configView with
      | some (ConfigView.Primary sticker isVisible) => sticker && isVisible
      | _ => false
    if v.m_alternativesIsShown || stickyVisibleConfigView then v
    else
      match v.m_visibility with
      | some vm => { v with m_visibility := some (vm.setBlockHiding false) }
      | none => v
  else
    match v.m_visibility with
    | some vm => { v with m_visibility := some (vm.setBlockHiding true) }
    | none => v

/-- Embedding of `View::statusChanged(Plasma::Types::ItemStatus status)`. -/
def statusChanged (v : View) (_status : ItemStatus) : View :=
  match v.containment with
  | some c =>
    if c.status.toNat ≥ ItemStatus.NeedsAttentionStatus.toNat
        ∧ c.status ≠ ItemStatus.HiddenStatus then
      v.setBlockHiding true
    else if c.isUserConfiguring = false then
      v.setBlockHiding false
    else v
  | none => v

/-- Embedding of `View::setAlternativesIsShown(bool show)`. -/
def setAlternativesIsShown (v : View) (show_ : Bool) : View :=
  if v.m_alternativesIsShown = show_ then v
  else
    let v := { v with m_alternativesIsShown := show_ }
    let v := v.setBlockHiding show_
    v.emit Signal.alternativesIsShownChanged

/-! ## Applets and drops -/

/-- The `foreach` of `View::tasksPresent()` over the applets. -/
def tasksPresentIn : List Applet → Bool
  | [] => false
  | applet :: rest =>
    if applet.provides.contains "org.kde.plasma.multitasking" then true
    else tasksPresentIn rest

/-- Embedding of `View::tasksPresent()`. -/
def tasksPresent (v : View) : Bool :=
  match v.containment with
  | none => false
  | some c => tasksPresentIn c.applets

/-- The `foreach` of `View::mimeContainsPlasmoid` over the applet names. -/
def nameAmong (name : String) : List String → Bool
  | [] => false
  | appletName :: rest => if appletName = name then true else nameAmong name rest

/-- Embedding of `View::mimeContainsPlasmoid(QMimeData *mimeData, QString name)`; a null pointer
is `none`. -/
def mimeContainsPlasmoid (mimeData : Option QMimeData) (name : String) : Bool :=
  match mimeData with
  | none => false
  | some m =>
    if m.hasFormat "text/x-plasmoidservicename" then
      let data := m.data "text/x-plasmoidservicename"
      let appletNames := splitSkipEmptyParts (Char.ofNat 10) data
      nameAmong name appletNames
    else false

end View

/-- The new events of a log: what was appended to `before` to reach `after`. -/
def newEvents (before after : List Event) : List Event :=
  after.drop before.length

/-- The signals among some events, in order. -/
def emittedSignals : List Event → List Signal
  | [] => []
  | Event.emitted s :: rest => s :: emittedSignals rest
  | Event.called _ :: rest => emittedSignals rest

/-- The collaborator calls among some events, in order. -/
def collaboratorCalls : List Event → List Call
  | [] => []
  | Event.emitted _ :: rest => collaboratorCalls rest
  | Event.called c :: rest => c :: collaboratorCalls rest

/-! ## Sample objects

A dock on the bottom edge of a 1920x1080 screen, after `init()`, and variations
of it used to evaluate the functions above. -/

/-- A containment with a task manager applet and a stored configuration. -/
def sampleContainment : Containment :=
  { id := 1
    config := ⟨[("onPrimary", "false"), ("byPassWM", "true"),
                ("isPreferredForShortcuts", "true"), ("viewType", "1")]⟩
    applets := [{ id := 7, pluginId := "org.kde.plasma.taskmanager",
                  provides := ["org.kde.plasma.multitasking"] }]
    status := ItemStatus.PassiveStatus
    isUserConfiguring := false
    formFactor := FormFactor.Horizontal }

/-- A dock view with that containment, on an X11 session (no shell surface). -/
def sampleView : View :=
  { x := 0
    y := 1016
    flags := View.constructorFlags false
    windowSurface := none
    corona := some (Corona.Latte none)
    containment := some sampleContainment
    m_localGeometry := QRect.ofXYWH 100 0 1720 64
    m_absGeometry := QRect.null
    m_shellSurface := none
    m_visibility := some { m_mode := Visibility.AlwaysVisible }
    m_windowsTracker := some {}
    m_configView := none
    m_alternativesIsShown := false
    m_inDelete := false
    m_byPassWM := false
    m_onPrimary := true
    m_isPreferredForShortcuts := false
    m_type := ViewType.DockView
    connections := { changedToSaveConfig := true, coronaAvailableScreenRect := true }
    log := [] }

/-- The same dock on a Wayland session: the corona has the Wayland interface and the
window has its surface, no shell surface was created yet. -/
def waylandView : View :=
  { sampleView with
    corona := some (Corona.Latte (some { name := 3 }))
    windowSurface := some { wlSurface := 21 } }

/-- The Wayland dock once its shell surface exists. -/
def waylandViewWithShell : View :=
  { waylandView with
    m_shellSurface := some { surface := { wlSurface := 21 }, skipTaskbar := true,
                             role := Role.Panel,
                             panelBehavior := PanelBehavior.WindowsGoBelow } }

/-- The sample dock once its absolute geometry is up to date. -/
def sampleViewSynced : View :=
  { sampleView with m_absGeometry := ⟨100, 1016, 1819, 1079⟩ }

/-- The sample dock while its sticky settings window is shown and hiding is blocked. -/
def sampleViewStickyConfig : View :=
  { sampleView with
    m_configView := some (ConfigView.Primary true true)
    m_visibility := some { m_mode := Visibility.AutoHide, m_blockHiding := true } }

/-- The sample dock with hiding blocked and nothing that needs it shown. -/
def sampleViewBlocked : View :=
  { sampleView with
    m_visibility := some { m_mode := Visibility.AutoHide, m_blockHiding := true } }

/-- A panel as it is found at start-up: the containment stores `viewType=1` and no
`isPreferredForShortcuts` entry, the members still have their initial values. -/
def storedPanelView : View :=
  { sampleView with
    containment := some { sampleContainment with
      config := ⟨[("onPrimary", "false"), ("byPassWM", "true"), ("viewType", "1")]⟩ }
    m_type := ViewType.DockView }

/-- The sample dock, auto-hiding, while an applet of the containment needs attention. -/
def sampleViewNeedsAttention : View :=
  { sampleView with
    containment := some { sampleContainment with status := ItemStatus.NeedsAttentionStatus }
    m_visibility := some { m_mode := Visibility.AutoHide, m_blockHiding := false } }

/-- The sample dock with hiding blocked, its containment hidden and being configured
by the user. -/
def sampleViewConfiguring : View :=
  { sampleViewBlocked with
    containment := some { sampleContainment with
      status := ItemStatus.HiddenStatus, isUserConfiguring := true } }

/-- The sample dock with hiding blocked while the alternatives are shown. -/
def sampleViewAlternatives : View :=
  { sampleViewBlocked with m_alternativesIsShown := true }

/-! # Properties

## Arithmetic of `int` and `QRect` -/

theorem wrapInt32_of_isInt32 {z : Int} (h : isInt32 z) : wrapInt32 z = z := by
  unfold isInt32 at h
  unfold wrapInt32
  omega

theorem isInt32_wrapInt32 (z : Int) : isInt32 (wrapInt32 z) := by
  unfold isInt32 wrapInt32
  omega

theorem QRect.x_ofXYWH (l t w h : Int) : (QRect.ofXYWH l t w h).x = l := rfl

theorem QRect.y_ofXYWH (l t w h : Int) : (QRect.ofXYWH l t w h).y = t := rfl

/-- The width handed to `QRect(left, top, width, height)` is read back by `width()`
whatever the position, also when `left + width - 1` wraps around. -/
theorem QRect.width_ofXYWH (l t w h : Int) (hw : isInt32 w) :
    (QRect.ofXYWH l t w h).width = w := by
  unfold isInt32 at hw
  simp only [QRect.width, QRect.ofXYWH, add32, sub32, wrapInt32]
  omega

/-- The height handed to `QRect(left, top, width, height)` is read back by `height()`. -/
theorem QRect.height_ofXYWH (l t w h : Int) (hh : isInt32 h) :
    (QRect.ofXYWH l t w h).height = h := by
  unfold isInt32 at hh
  simp only [QRect.height, QRect.ofXYWH, add32, sub32, wrapInt32]
  omega

namespace View

/-! ## Logs and members under `call` and `emit` -/

theorem call_absGeometry (v : View) (c : Call) :
    (v.call c).m_absGeometry = v.m_absGeometry := rfl

theorem saveConfig_absGeometry (v : View) : v.saveConfig.m_absGeometry = v.m_absGeometry := by
  unfold saveConfig
  cases v.containment <;> rfl

theorem availableScreenRectChanged_absGeometry (v : View) :
    v.availableScreenRectChanged.m_absGeometry = v.m_absGeometry := by
  unfold availableScreenRectChanged
  split
  · rfl
  · split <;> rfl

theorem emit_absGeometry (v : View) (s : Signal) :
    (v.emit s).m_absGeometry = v.m_absGeometry := by
  cases s <;> simp only [emit] <;> first
    | rfl
    | (split
       · rw [saveConfig_absGeometry]
       · rfl)
    | (split
       · rw [availableScreenRectChanged_absGeometry]
       · rfl)

/-- The geometry `updateAbsDockGeometry` computes is the one stored afterwards. -/
theorem updateAbsDockGeometry_stored (v : View) (bypassChecks : Bool) :
    (v.updateAbsDockGeometry bypassChecks).m_absGeometry
      = QRect.ofXYWH (add32 v.x v.m_localGeometry.x) (add32 v.y v.m_localGeometry.y)
          v.m_localGeometry.width v.m_localGeometry.height := by
  unfold updateAbsDockGeometry
  simp only
  split
  · rename_i h
    exact h.1
  · split
    · simp only [emit_absGeometry]
    · simp only [emit_absGeometry]

/-- C1: after `updateAbsDockGeometry` (any `bypassChecks`, any previously stored
geometry), for a window at `(x, y)` and a local geometry `QRect(lx, ly, lw, lh)`,
`absGeometry()` is `QRect(x + lx, y + ly, lw, lh)`: its origin is the `int` sums
`x + lx`, `y + ly` (the exact sums whenever these fit an `int`), its width is exactly
`lw` and its height exactly `lh`. -/
theorem updateAbsDockGeometry_absGeometry (v : View) (bypassChecks : Bool)
    (x y lx ly lw lh : Int) (hlw : isInt32 lw) (hlh : isInt32 lh) :
    let v1 := ({ v with x := x, y := y, m_localGeometry := QRect.ofXYWH lx ly lw lh }
               ).updateAbsDockGeometry bypassChecks
    v1.absGeometry = QRect.ofXYWH (add32 x lx) (add32 y ly) lw lh
      ∧ v1.absGeometry.x = add32 x lx ∧ v1.absGeometry.y = add32 y ly
      ∧ v1.absGeometry.width = lw ∧ v1.absGeometry.height = lh
      ∧ (isInt32 (x + lx) → v1.absGeometry.x = x + lx)
      ∧ (isInt32 (y + ly) → v1.absGeometry.y = y + ly) := by
  intro v1
  have hstored : v1.absGeometry = QRect.ofXYWH (add32 x lx) (add32 y ly) lw lh := by
    show (View.updateAbsDockGeometry _ bypassChecks).m_absGeometry = _
    rw [updateAbsDockGeometry_stored]
    simp only [QRect.x_ofXYWH, QRect.y_ofXYWH, QRect.width_ofXYWH _ _ _ _ hlw,
      QRect.height_ofXYWH _ _ _ _ hlh]
  refine ⟨hstored, ?_, ?_, ?_, ?_, ?_, ?_⟩
  · rw [hstored]; rfl
  · rw [hstored]; rfl
  · rw [hstored]; exact QRect.width_ofXYWH _ _ _ _ hlw
  · rw [hstored]; exact QRect.height_ofXYWH _ _ _ _ hlh
  · intro h; rw [hstored]; exact wrapInt32_of_isInt32 h
  · intro h; rw [hstored]; exact wrapInt32_of_isInt32 h

end View

/-! ## `QString::split` and the parts of a text -/

/-- The scan of `QString::split` yields the non-empty parts of the text, the first
part extended to the left by the characters already read. -/
theorem splitSkipEmptyPartsFrom_eq (sep : Char) (text cur : List Char) :
    splitSkipEmptyPartsFrom sep text cur
      = (((List.splitOn sep text).modifyHead (cur.reverse ++ ·)).filter
          (fun part => part ≠ [])) := by
  induction text generalizing cur with
  | nil =>
    by_cases hcur : cur = []
    · simp [splitSkipEmptyPartsFrom, List.splitOn, List.modifyHead, hcur]
    · simp [splitSkipEmptyPartsFrom, List.splitOn, List.modifyHead, hcur]
  | cons c rest ih =>
    unfold splitSkipEmptyPartsFrom
    by_cases hc : c = sep
    · subst hc
      rw [if_pos rfl, ih []]
      simp only [List.splitOn, List.splitOnP_cons, beq_self_eq_true, if_true, List.modifyHead,
        List.reverse_nil, List.nil_append, List.append_nil]
      by_cases hcur : cur = []
      · simp [hcur, List.filter_cons]
        congr 1
        cases List.splitOnP (fun x => x == c) rest <;> simp [List.modifyHead]
      · simp [hcur, List.filter_cons]
        congr 1
        cases List.splitOnP (fun x => x == c) rest <;> simp [List.modifyHead]
    · rw [if_neg hc, ih (c :: cur)]
      have hbeq : (c == sep) = false := by simpa using hc
      simp only [List.splitOn, List.splitOnP_cons, hbeq, Bool.false_eq_true, if_false,
        List.modifyHead_modifyHead]
      congr 2
      funext part
      simp

/-- The parts `QString::split(sep, SkipEmptyParts)` returns are the non-empty
segments of the text between separators. -/
theorem mem_splitSkipEmptyParts (sep : Char) (text name : String) :
    name ∈ splitSkipEmptyParts sep text
      ↔ name.data ≠ [] ∧ name.data ∈ List.splitOn sep text.data := by
  unfold splitSkipEmptyParts
  rw [splitSkipEmptyPartsFrom_eq]
  have hhead : ∀ l : List (List Char), l.modifyHead (([] : List Char).reverse ++ ·) = l := by
    intro l
    cases l <;> simp [List.modifyHead]
  rw [hhead]
  constructor
  · intro h
    obtain ⟨part, hpart, hname⟩ := List.mem_map.mp h
    subst hname
    rw [List.mem_filter] at hpart
    exact ⟨by simpa using hpart.2, hpart.1⟩
  · rintro ⟨hne, hmem⟩
    refine List.mem_map.mpr ⟨name.data, ?_, rfl⟩
    rw [List.mem_filter]
    exact ⟨hmem, by simpa using hne⟩

namespace View

theorem nameAmong_iff (name : String) (appletNames : List String) :
    nameAmong name appletNames = true ↔ name ∈ appletNames := by
  induction appletNames with
  | nil => simp [nameAmong]
  | cons a rest ih =>
    unfold nameAmong
    by_cases h : a = name
    · simp [h]
    · have h2 : ¬ name = a := fun e => h e.symm
      simp [h, h2, ih]

/-- C2: `mimeContainsPlasmoid(mimeData, name)` is true exactly when `mimeData` is not
null, has the format `text/x-plasmoidservicename`, and `name` is one of the non-empty
segments of that format's data between line feeds; so it is false for a null
`mimeData` and false for the empty name. -/
theorem mimeContainsPlasmoid_iff (mimeData : Option QMimeData) (name : String) :
    (mimeContainsPlasmoid mimeData name = true
        ↔ ∃ m, mimeData = some m
            ∧ m.hasFormat "text/x-plasmoidservicename" = true
            ∧ name.data ≠ []
            ∧ name.data ∈ List.splitOn (Char.ofNat 10)
                (m.data "text/x-plasmoidservicename").data)
      ∧ mimeContainsPlasmoid none name = false
      ∧ mimeContainsPlasmoid mimeData "" = false := by
  have hiff : ∀ (md : Option QMimeData) (n : String),
      mimeContainsPlasmoid md n = true
        ↔ ∃ m, md = some m
            ∧ m.hasFormat "text/x-plasmoidservicename" = true
            ∧ n.data ≠ []
            ∧ n.data ∈ List.splitOn (Char.ofNat 10)
                (m.data "text/x-plasmoidservicename").data := by
    intro md n
    cases md with
    | none => simp [mimeContainsPlasmoid]
    | some m =>
      unfold mimeContainsPlasmoid
      by_cases hf : m.hasFormat "text/x-plasmoidservicename" = true
      · simp only [hf, if_true, nameAmong_iff, mem_splitSkipEmptyParts]
        constructor
        · intro h
          exact ⟨m, rfl, hf, h.1, h.2⟩
        · rintro ⟨m1, hm, -, h1, h2⟩
          cases hm
          exact ⟨h1, h2⟩
      · simp only [hf]
        constructor
        · intro h
          exact absurd h (by simp)
        · rintro ⟨m1, hm, hf1, -⟩
          cases hm
          exact absurd hf1 hf
  refine ⟨hiff mimeData name, rfl, ?_⟩
  cases h : mimeContainsPlasmoid mimeData ""
  · rfl
  · obtain ⟨m, -, -, hne, -⟩ := (hiff mimeData "").mp h
    exact absurd rfl hne

/-- C3: the window flags the constructor sets contain FramelessWindowHint,
WindowStaysOnTopHint, NoDropShadowWindowHint and WindowDoesNotAcceptFocus whatever the
arguments, and contain BypassWindowManagerHint exactly when `byPassWM` is true. -/
theorem ctor_flags (members : View) (corona : Option Corona) (byPassWM : Bool) :
    let flags := (ctor members corona byPassWM).flags
    testFlag flags FramelessWindowHint = true
      ∧ testFlag flags WindowStaysOnTopHint = true
      ∧ testFlag flags NoDropShadowWindowHint = true
      ∧ testFlag flags WindowDoesNotAcceptFocus = true
      ∧ (testFlag flags BypassWindowManagerHint = true ↔ byPassWM = true) := by
  cases byPassWM <;> simp only [ctor] <;> decide

/-! ## What `call`, `saveConfig` and `emit` leave alone -/

theorem saveConfig_frame (v : View) :
    v.saveConfig = { v with log := v.saveConfig.log, containment := v.saveConfig.containment } := by
  unfold saveConfig
  cases v.containment <;> rfl

theorem availableScreenRectChanged_frame (v : View) :
    v.availableScreenRectChanged = { v with log := v.availableScreenRectChanged.log } := by
  unfold availableScreenRectChanged
  split
  · rfl
  · split <;> rfl

/-- An `emit` changes nothing of the object but its log and, through `saveConfig`,
the containment's configuration. -/
theorem emit_frame (v : View) (s : Signal) :
    v.emit s = { v with log := (v.emit s).log, containment := (v.emit s).containment } := by
  cases s <;> simp only [emit] <;> first
    | rfl
    | (split
       · exact saveConfig_frame _
       · rfl)
    | (split
       · rw [availableScreenRectChanged_frame]
       · rfl)

theorem emit_byPassWM (v : View) (s : Signal) : (v.emit s).m_byPassWM = v.m_byPassWM := by
  rw [emit_frame]

theorem emit_onPrimary (v : View) (s : Signal) : (v.emit s).m_onPrimary = v.m_onPrimary := by
  rw [emit_frame]

theorem emit_isPreferredForShortcuts (v : View) (s : Signal) :
    (v.emit s).m_isPreferredForShortcuts = v.m_isPreferredForShortcuts := by
  rw [emit_frame]

theorem emit_type (v : View) (s : Signal) : (v.emit s).m_type = v.m_type := by
  rw [emit_frame]

theorem emit_connections (v : View) (s : Signal) : (v.emit s).connections = v.connections := by
  rw [emit_frame]

/-! ## Restoring the configuration -/

theorem restoreConfig_onPrimary (v : View) (c : Containment) (hc : v.containment = some c) :
    v.restoreConfig.m_onPrimary = c.config.readEntryBool "onPrimary" true := by
  unfold restoreConfig
  rw [hc]
  simp only [emit_onPrimary]

theorem restoreConfig_byPassWM (v : View) (c : Containment) (hc : v.containment = some c) :
    v.restoreConfig.m_byPassWM = c.config.readEntryBool "byPassWM" false := by
  unfold restoreConfig
  rw [hc]
  simp only [emit_byPassWM]

theorem restoreConfig_isPreferredForShortcuts (v : View) (c : Containment)
    (hc : v.containment = some c) :
    v.restoreConfig.m_isPreferredForShortcuts
      = c.config.readEntryBool "isPreferredForShortcuts" false := by
  unfold restoreConfig
  rw [hc]
  simp only [emit_isPreferredForShortcuts]

theorem setByPassWM_byPassWM (v : View) (bypass : Bool) :
    (v.setByPassWM bypass).m_byPassWM = bypass := by
  unfold setByPassWM
  split
  · assumption
  · simp only [emit_byPassWM]

theorem setByPassWM_frame (v : View) (bypass : Bool) :
    (v.setByPassWM bypass).m_onPrimary = v.m_onPrimary
      ∧ (v.setByPassWM bypass).m_isPreferredForShortcuts = v.m_isPreferredForShortcuts := by
  unfold setByPassWM
  split
  · exact ⟨rfl, rfl⟩
  · simp only [emit_onPrimary, emit_isPreferredForShortcuts, and_self]

/-- What follows `setByPassWM` in the `containmentChanged` handler touches none of
the three restored members. -/
theorem containmentChangedHandler_members (byPassWM : Bool) (v : View) (c : Containment)
    (hc : v.containment = some c) :
    (containmentChangedHandler byPassWM v).m_byPassWM
        = (v.restoreConfig.setByPassWM byPassWM).m_byPassWM
      ∧ (containmentChangedHandler byPassWM v).m_onPrimary
        = (v.restoreConfig.setByPassWM byPassWM).m_onPrimary
      ∧ (containmentChangedHandler byPassWM v).m_isPreferredForShortcuts
        = (v.restoreConfig.setByPassWM byPassWM).m_isPreferredForShortcuts := by
  unfold containmentChangedHandler
  rw [hc]
  simp only [reconsiderScreen, call]
  refine ⟨?_, ?_, ?_⟩ <;> (split <;> split <;> rfl)

/-- C4: with a containment, the `containmentChanged` handler first restores the
stored values (after `restoreConfig`, `byPassWM()` is the stored `byPassWM` entry)
and then overrides: after the handler `byPassWM()` is the constructor argument
whatever is stored, while `onPrimary()` and `isPreferredForShortcuts()` are the
stored values (read with the defaults `true` and `false`). -/
theorem containmentChangedHandler_restores_then_overrides (byPassWM : Bool) (v : View)
    (c : Containment) (hc : v.containment = some c) :
    v.restoreConfig.byPassWM = c.config.readEntryBool "byPassWM" false
      ∧ (containmentChangedHandler byPassWM v).byPassWM = byPassWM
      ∧ (containmentChangedHandler byPassWM v).onPrimary
          = c.config.readEntryBool "onPrimary" true
      ∧ (containmentChangedHandler byPassWM v).isPreferredForShortcuts
          = c.config.readEntryBool "isPreferredForShortcuts" false := by
  obtain ⟨h1, h2, h3⟩ := containmentChangedHandler_members byPassWM v c hc
  refine ⟨restoreConfig_byPassWM v c hc, ?_, ?_, ?_⟩
  · show (containmentChangedHandler byPassWM v).m_byPassWM = byPassWM
    rw [h1, setByPassWM_byPassWM]
  · show (containmentChangedHandler byPassWM v).m_onPrimary = _
    rw [h2, (setByPassWM_frame _ _).1, restoreConfig_onPrimary v c hc]
  · show (containmentChangedHandler byPassWM v).m_isPreferredForShortcuts = _
    rw [h3, (setByPassWM_frame _ _).2, restoreConfig_isPreferredForShortcuts v c hc]

/-- The stored `byPassWM` is `true`, the view is created with `byPassWM = false`. -/
theorem containmentChangedHandler_restores_then_overrides_witness :
    sampleView.containment = some sampleContainment
      ∧ sampleView.restoreConfig.byPassWM = true
      ∧ (containmentChangedHandler false sampleView).byPassWM = false
      ∧ (containmentChangedHandler false sampleView).onPrimary = false
      ∧ (containmentChangedHandler false sampleView).isPreferredForShortcuts = true :=
  ⟨rfl, containmentChangedHandler_restores_then_overrides false sampleView sampleContainment rfl⟩

end View

/-! ## Reading what was written -/

namespace KConfigGroup

theorem lookup_putData (key value key1 : String) (entries : List (String × String)) :
    (putData key value entries).lookup key1
      = if key1 = key then some value else entries.lookup key1 := by
  induction entries with
  | nil =>
    by_cases h : key1 = key
    · simp [putData, List.lookup, h]
    · have h2 : (key1 == key) = false := by simpa using h
      simp [putData, List.lookup, h, h2]
  | cons e rest ih =>
    obtain ⟨k, x⟩ := e
    unfold putData
    by_cases hk : k = key
    · subst hk
      by_cases h : key1 = k
      · simp [List.lookup, h]
      · have h2 : (key1 == k) = false := by simpa using h
        simp [List.lookup, h, h2]
    · have hk2 : (k == key) = false := by simpa using hk
      rw [hk2]
      simp only [Bool.false_eq_true, if_false, List.lookup]
      by_cases h1 : key1 = k
      · subst h1
        simp [hk]
      · have h3 : (key1 == k) = false := by simpa using h1
        rw [h3]
        exact ih

theorem readEntryBool_writeEntryBool (g : KConfigGroup) (key key1 : String) (value d : Bool) :
    (g.writeEntryBool key value).readEntryBool key1 d
      = if key1 = key then value else g.readEntryBool key1 d := by
  unfold readEntryBool lookupData writeEntryBool
  simp only [lookup_putData]
  by_cases h : key1 = key
  · simp only [h, if_true]
    cases value <;> decide
  · simp only [h, if_false]

theorem readEntryBool_writeEntryInt (g : KConfigGroup) (key key1 : String) (value : Int)
    (d : Bool) (h : key1 ≠ key) :
    (g.writeEntryInt key value).readEntryBool key1 d = g.readEntryBool key1 d := by
  unfold readEntryBool lookupData writeEntryInt
  simp only [lookup_putData, h, if_false]

theorem lookupData_writeEntryInt (g : KConfigGroup) (key : String) (value : Int) :
    (g.writeEntryInt key value).lookupData key = some (toString value) := by
  unfold lookupData writeEntryInt
  simp only [lookup_putData, if_true]

end KConfigGroup

namespace View

/-- What `saveConfig` leaves in the configuration: the three flags read back as the
members, and `viewType` holds the in-memory type. -/
theorem saveConfig_reads (v : View) (c : Containment) (hc : v.containment = some c) :
    ∃ c1, v.saveConfig.containment = some c1
      ∧ c1.config.readEntryBool "onPrimary" true = v.m_onPrimary
      ∧ c1.config.readEntryBool "byPassWM" false = v.m_byPassWM
      ∧ c1.config.readEntryBool "isPreferredForShortcuts" false = v.m_isPreferredForShortcuts
      ∧ c1.config.lookupData "viewType" = some (toString v.m_type.toInt) := by
  unfold saveConfig
  rw [hc]
  refine ⟨_, rfl, ?_, ?_, ?_, ?_⟩
  · rw [KConfigGroup.readEntryBool_writeEntryInt _ _ _ _ _ (by decide)]
    simp only [KConfigGroup.readEntryBool_writeEntryBool]
    rfl
  · rw [KConfigGroup.readEntryBool_writeEntryInt _ _ _ _ _ (by decide)]
    simp only [KConfigGroup.readEntryBool_writeEntryBool]
    rfl
  · rw [KConfigGroup.readEntryBool_writeEntryInt _ _ _ _ _ (by decide)]
    simp only [KConfigGroup.readEntryBool_writeEntryBool]
    rfl
  · exact KConfigGroup.lookupData_writeEntryInt _ _ _


/-- An `emit` of onPrimaryChanged or byPassWMChanged keeps the configuration in
agreement with the members, whether `saveConfig` runs or not. -/
theorem emit_changed_reads (v : View) (c : Containment) (s : Signal)
    (hs : s = Signal.onPrimaryChanged ∨ s = Signal.byPassWMChanged)
    (hc : v.containment = some c)
    (h1 : c.config.readEntryBool "onPrimary" true = v.m_onPrimary)
    (h2 : c.config.readEntryBool "byPassWM" false = v.m_byPassWM)
    (h3 : c.config.readEntryBool "isPreferredForShortcuts" false = v.m_isPreferredForShortcuts) :
    ∃ c1, (v.emit s).containment = some c1
      ∧ c1.config.readEntryBool "onPrimary" true = v.m_onPrimary
      ∧ c1.config.readEntryBool "byPassWM" false = v.m_byPassWM
      ∧ c1.config.readEntryBool "isPreferredForShortcuts" false
          = v.m_isPreferredForShortcuts := by
  rcases hs with hs | hs <;> subst hs <;> simp only [emit] <;> split
  · obtain ⟨c1, e, r1, r2, r3, -⟩ :=
      saveConfig_reads { v with log := v.log ++ [Event.emitted Signal.onPrimaryChanged] } c hc
    exact ⟨c1, e, r1, r2, r3⟩
  · exact ⟨c, hc, h1, h2, h3⟩
  · obtain ⟨c1, e, r1, r2, r3, -⟩ :=
      saveConfig_reads { v with log := v.log ++ [Event.emitted Signal.byPassWMChanged] } c hc
    exact ⟨c1, e, r1, r2, r3⟩
  · exact ⟨c, hc, h1, h2, h3⟩

/-- C5 (amended): `restoreConfig`, with `saveConfig` connected to onPrimaryChanged
and byPassWMChanged or not, leaves each entry it loads (`onPrimary`, `byPassWM`,
`isPreferredForShortcuts`) reading, with the default `restoreConfig` uses, the value
it read before the call. -/
theorem restoreConfig_keeps_loaded_entries (v : View) (c : Containment)
    (hc : v.containment = some c) :
    ∃ c1, v.restoreConfig.containment = some c1
      ∧ c1.config.readEntryBool "onPrimary" true = c.config.readEntryBool "onPrimary" true
      ∧ c1.config.readEntryBool "byPassWM" false = c.config.readEntryBool "byPassWM" false
      ∧ c1.config.readEntryBool "isPreferredForShortcuts" false
          = c.config.readEntryBool "isPreferredForShortcuts" false := by
  unfold restoreConfig
  split
  · rename_i h
    rw [hc] at h
    cases h
  rename_i c0 h
  rw [hc] at h
  cases h
  simp only
  obtain ⟨c1, e1, a1, a2, a3⟩ := emit_changed_reads
    { v with m_onPrimary := c.config.readEntryBool "onPrimary" true,
             m_byPassWM := c.config.readEntryBool "byPassWM" false,
             m_isPreferredForShortcuts := c.config.readEntryBool "isPreferredForShortcuts" false }
    c Signal.onPrimaryChanged (Or.inl rfl) hc rfl rfl rfl
  obtain ⟨c2, e2, b1, b2, b3⟩ := emit_changed_reads _ c1 Signal.byPassWMChanged (Or.inr rfl) e1
    (by rw [emit_onPrimary]; exact a1) (by rw [emit_byPassWM]; exact a2)
    (by rw [emit_isPreferredForShortcuts]; exact a3)
  refine ⟨c2, e2, ?_, ?_, ?_⟩
  · rw [b1, emit_onPrimary]
  · rw [b2, emit_byPassWM]
  · rw [b3, emit_isPreferredForShortcuts]

/-- The stored flags differ from the members and `saveConfig` is connected: the loaded
entries read back as before. -/
theorem restoreConfig_keeps_loaded_entries_witness :
    sampleView.containment = some sampleContainment
      ∧ sampleView.connections.changedToSaveConfig = true
      ∧ ∃ c1, sampleView.restoreConfig.containment = some c1
          ∧ c1.config.readEntryBool "onPrimary" true = false
          ∧ c1.config.readEntryBool "byPassWM" false = true
          ∧ c1.config.readEntryBool "isPreferredForShortcuts" false = true :=
  ⟨rfl, rfl, restoreConfig_keeps_loaded_entries sampleView sampleContainment rfl⟩

/-- C5 (as stated) fails: with `saveConfig` connected, a view whose in-memory type is
DockView and whose containment stores `viewType=1` and no `isPreferredForShortcuts`
has `viewType=0` and `isPreferredForShortcuts=false` stored after `restoreConfig`.
`viewType` is written from `m_type`, which `restoreConfig` does not load, and every
entry is written whether it was stored or not. -/
theorem restoreConfig_rewrites_entries :
    storedPanelView.connections.changedToSaveConfig = true
      ∧ storedPanelView.m_type = ViewType.DockView
      ∧ storedPanelView.containment.map (fun c => c.config.lookupData "viewType")
          = some (some "1")
      ∧ storedPanelView.restoreConfig.containment.map
          (fun c => c.config.lookupData "viewType") = some (some "0")
      ∧ storedPanelView.containment.map
          (fun c => c.config.lookupData "isPreferredForShortcuts") = some none
      ∧ storedPanelView.restoreConfig.containment.map
          (fun c => c.config.lookupData "isPreferredForShortcuts") = some (some "false") := by
  decide

/-- A dock at `(0, 1016)` with local geometry `QRect(100, 0, 1720, 64)`. -/
theorem updateAbsDockGeometry_absGeometry_witness :
    isInt32 1720 ∧ isInt32 64
      ∧ (({ sampleView with x := 0, y := 1016, m_localGeometry := QRect.ofXYWH 100 0 1720 64 }
          ).updateAbsDockGeometry false).absGeometry = ⟨100, 1016, 1819, 1079⟩
      ∧ (({ sampleView with x := 0, y := 1016, m_localGeometry := QRect.ofXYWH 100 0 1720 64 }
          ).updateAbsDockGeometry false).absGeometry.width = 1720 :=
  ⟨by decide, by decide,
    (updateAbsDockGeometry_absGeometry sampleView false 0 1016 100 0 1720 64
      (by decide) (by decide)).1,
    (updateAbsDockGeometry_absGeometry sampleView false 0 1016 100 0 1720 64
      (by decide) (by decide)).2.2.2.1⟩

/-! ## Applets -/

theorem tasksPresentIn_iff (applets : List Applet) :
    tasksPresentIn applets = true
      ↔ ∃ applet ∈ applets, "org.kde.plasma.multitasking" ∈ applet.provides := by
  induction applets with
  | nil => simp [tasksPresentIn]
  | cons a rest ih =>
    unfold tasksPresentIn
    by_cases h : a.provides.contains "org.kde.plasma.multitasking" = true
    · have hm : "org.kde.plasma.multitasking" ∈ a.provides := by simpa using h
      simp only [h, if_true, true_iff]
      exact ⟨a, List.mem_cons_self _ _, hm⟩
    · have hm : ¬ "org.kde.plasma.multitasking" ∈ a.provides := by simpa using h
      simp only [h, if_false, Bool.false_eq_true, ih, List.mem_cons]
      constructor
      · rintro ⟨b, hb, hp⟩
        exact ⟨b, Or.inr hb, hp⟩
      · rintro ⟨b, hb | hb, hp⟩
        · subst hb
          exact absurd hp hm
        · exact ⟨b, hb, hp⟩

/-- C6: `tasksPresent()` is true exactly when the view has a containment and one of
its applets lists `org.kde.plasma.multitasking` in its X-Plasma-Provides; it is false
without a containment and false for a containment without applets. -/
theorem tasksPresent_iff (v : View) :
    (v.tasksPresent = true
        ↔ ∃ c, v.containment = some c
            ∧ ∃ applet ∈ c.applets, "org.kde.plasma.multitasking" ∈ applet.provides)
      ∧ ({ v with containment := none }).tasksPresent = false
      ∧ ∀ c : Containment,
          ({ v with containment := some { c with applets := [] } }).tasksPresent = false := by
  refine ⟨?_, rfl, fun _ => rfl⟩
  unfold tasksPresent
  cases v.containment with
  | none => simp
  | some c => simp [tasksPresentIn_iff]

/-! ## Wayland integration -/

/-- C7: when `setupWaylandIntegration` creates a shell surface (none existed, the
corona is a `Latte::Corona` with a Wayland interface, the window has a Surface), the
surface it stores is a new one for the window's Surface, with skip-taskbar set, role
Panel and panel behaviour WindowsGoBelow; when a shell surface exists already, the
call changes nothing: `surface()` is the same object and no surface is created. -/
theorem setupWaylandIntegration_panel (v : View) :
    (∀ (interface : PlasmaShell) (s : Surface),
        v.m_shellSurface = none → v.corona = some (Corona.Latte (some interface))
          → v.windowSurface = some s →
        ∃ shell, v.setupWaylandIntegration.surface = some shell
          ∧ shell.surface = s
          ∧ shell.skipTaskbar = true
          ∧ shell.role = Role.Panel
          ∧ shell.panelBehavior = PanelBehavior.WindowsGoBelow
          ∧ v.setupWaylandIntegration.log = v.log ++ [Event.called (Call.createSurface s)])
      ∧ (∀ shell, v.m_shellSurface = some shell →
          v.setupWaylandIntegration = v
            ∧ v.setupWaylandIntegration.surface = some shell) := by
  constructor
  · intro interface s hnone hcorona hsurface
    unfold setupWaylandIntegration
    rw [hnone, hcorona, hsurface]
    exact ⟨_, rfl, rfl, rfl, rfl, rfl, rfl⟩
  · intro shell hshell
    have h : v.setupWaylandIntegration = v := by
      unfold setupWaylandIntegration
      rw [hshell]
      rfl
    exact ⟨h, by rw [h]; exact hshell⟩

/-- A first call on the Wayland dock creates the panel surface; a call on the dock
that has its surface changes nothing. -/
theorem setupWaylandIntegration_panel_witness :
    (∃ shell, waylandView.setupWaylandIntegration.surface = some shell
        ∧ shell.surface = { wlSurface := 21 }
        ∧ shell.skipTaskbar = true
        ∧ shell.role = Role.Panel
        ∧ shell.panelBehavior = PanelBehavior.WindowsGoBelow
        ∧ waylandView.setupWaylandIntegration.log
            = waylandView.log ++ [Event.called (Call.createSurface { wlSurface := 21 })])
      ∧ waylandViewWithShell.setupWaylandIntegration = waylandViewWithShell :=
  ⟨(setupWaylandIntegration_panel waylandView).1 { name := 3 } { wlSurface := 21 } rfl rfl rfl,
    ((setupWaylandIntegration_panel waylandViewWithShell).2 _ rfl).1⟩

end View

/-! ## Logs -/

theorem emittedSignals_append (a b : List Event) :
    emittedSignals (a ++ b) = emittedSignals a ++ emittedSignals b := by
  induction a with
  | nil => rfl
  | cons e rest ih =>
    cases e with
    | emitted s => simp [emittedSignals, ih]
    | called c => simp [emittedSignals, ih]

theorem emittedSignals_called (calls : List Call) :
    emittedSignals (calls.map Event.called) = [] := by
  induction calls with
  | nil => rfl
  | cons c rest ih => simpa [emittedSignals] using ih

theorem newEvents_append (before new : List Event) : newEvents before (before ++ new) = new := by
  unfold newEvents
  simp

namespace View

/-! ## Announcing the geometry -/

/-- The corona's availableScreenRectChanged adds the signal to the log and, through
the slot of the view, at most calls into the positioner. -/
theorem emit_coronaAvailableScreenRectChanged (v : View) :
    ∃ calls : List Call,
      (v.emit Signal.coronaAvailableScreenRectChanged).log
        = v.log ++ Event.emitted Signal.coronaAvailableScreenRectChanged
            :: calls.map Event.called := by
  simp only [emit]
  split
  · unfold availableScreenRectChanged
    split
    · exact ⟨[], rfl⟩
    · split
      · exact ⟨[Call.positionerSyncGeometry], by simp [call]⟩
      · exact ⟨[], rfl⟩
  · exact ⟨[], rfl⟩

/-- C8: when the computed absolute geometry is the stored one and `bypassChecks` is
false, `updateAbsDockGeometry` changes nothing and emits nothing; otherwise the log
grows by events whose signals are absGeometryChanged with the new geometry, followed
by the corona's availableScreenRectChanged and availableScreenRegionChanged when the
visibility manager and the corona exist and the mode is AlwaysVisible, and by nothing
else when they do not. -/
theorem updateAbsDockGeometry_signals (v : View) (bypassChecks : Bool) :
    let computed := QRect.ofXYWH (add32 v.x v.m_localGeometry.x)
      (add32 v.y v.m_localGeometry.y) v.m_localGeometry.width v.m_localGeometry.height
    let alwaysVisibleDock : Prop :=
      (∃ vm, v.visibility = some vm ∧ vm.mode = Visibility.AlwaysVisible) ∧ v.corona ≠ none
    (v.m_absGeometry = computed → bypassChecks = false
        → v.updateAbsDockGeometry bypassChecks = v)
      ∧ (v.m_absGeometry ≠ computed ∨ bypassChecks = true →
          ∃ new, (v.updateAbsDockGeometry bypassChecks).log = v.log ++ new
            ∧ (alwaysVisibleDock →
                emittedSignals new = [Signal.absGeometryChanged computed,
                  Signal.coronaAvailableScreenRectChanged,
                  Signal.coronaAvailableScreenRegionChanged])
            ∧ (¬ alwaysVisibleDock →
                emittedSignals new = [Signal.absGeometryChanged computed])) := by
  intro computed alwaysVisibleDock
  constructor
  · intro hsame hbypass
    unfold updateAbsDockGeometry
    simp only
    rw [if_pos ⟨hsame, hbypass⟩]
  · intro hchanged
    have hcond : ¬ (v.m_absGeometry = computed ∧ bypassChecks = false) := by
      rintro ⟨h1, h2⟩
      rcases hchanged with h | h
      · exact h h1
      · rw [h2] at h
        cases h
    unfold updateAbsDockGeometry
    simp only
    rw [if_neg hcond]
    by_cases hav : alwaysVisibleDock
    · obtain ⟨⟨vm, hvm, hmode⟩, hcorona⟩ := hav
      have hvm1 : v.m_visibility = some vm := hvm
      have hinner : (({ v with m_absGeometry := computed }).emit
            (Signal.absGeometryChanged computed)).visibility.isSome = true
          ∧ (({ v with m_absGeometry := computed }).emit
            (Signal.absGeometryChanged computed)).corona.isSome = true
          ∧ Option.map VisibilityManager.mode (({ v with m_absGeometry := computed }).emit
            (Signal.absGeometryChanged computed)).visibility
              = some Visibility.AlwaysVisible := by
        refine ⟨?_, ?_, ?_⟩
        · show v.m_visibility.isSome = true
          rw [hvm1]; rfl
        · show v.corona.isSome = true
          cases hco : v.corona with
          | none => exact absurd hco hcorona
          | some _ => rfl
        · show Option.map VisibilityManager.mode v.m_visibility = _
          rw [hvm1]
          simp [hmode]
      rw [if_pos hinner]
      obtain ⟨calls, hcalls⟩ := emit_coronaAvailableScreenRectChanged
        (({ v with m_absGeometry := computed }).emit (Signal.absGeometryChanged computed))
      refine ⟨Event.emitted (Signal.absGeometryChanged computed)
          :: Event.emitted Signal.coronaAvailableScreenRectChanged
          :: (calls.map Event.called
              ++ [Event.emitted Signal.coronaAvailableScreenRegionChanged]), ?_, ?_, ?_⟩
      · show (View.emit _ Signal.coronaAvailableScreenRectChanged).log
            ++ [Event.emitted Signal.coronaAvailableScreenRegionChanged] = _
        rw [hcalls]
        show (v.log ++ [Event.emitted (Signal.absGeometryChanged computed)]
              ++ Event.emitted Signal.coronaAvailableScreenRectChanged :: calls.map Event.called)
              ++ [Event.emitted Signal.coronaAvailableScreenRegionChanged] = _
        simp
      · intro _
        simp [emittedSignals, emittedSignals_append, emittedSignals_called]
      · intro hno
        exact absurd ⟨⟨vm, hvm, hmode⟩, hcorona⟩ hno
    · have hinner : ¬ ((({ v with m_absGeometry := computed }).emit
            (Signal.absGeometryChanged computed)).visibility.isSome = true
          ∧ (({ v with m_absGeometry := computed }).emit
            (Signal.absGeometryChanged computed)).corona.isSome = true
          ∧ Option.map VisibilityManager.mode (({ v with m_absGeometry := computed }).emit
            (Signal.absGeometryChanged computed)).visibility
              = some Visibility.AlwaysVisible) := by
        rintro ⟨-, h2, h3⟩
        apply hav
        have h2a : v.corona.isSome = true := h2
        have h3a : Option.map VisibilityManager.mode v.m_visibility
            = some Visibility.AlwaysVisible := h3
        refine ⟨?_, ?_⟩
        · cases hvm : v.m_visibility with
          | none => rw [hvm] at h3a; cases h3a
          | some vm =>
            rw [hvm] at h3a
            exact ⟨vm, hvm, by simpa using h3a⟩
        · intro hnone
          rw [hnone] at h2a
          cases h2a
      rw [if_neg hinner]
      refine ⟨[Event.emitted (Signal.absGeometryChanged computed)], rfl, ?_, ?_⟩
      · intro hyes
        exact absurd hyes hav
      · intro _
        rfl

/-- The sample dock is always visible and its stored geometry is stale: the three
signals are emitted; once the geometry is up to date a call changes nothing. -/
theorem updateAbsDockGeometry_signals_witness :
    (∃ new, (sampleView.updateAbsDockGeometry false).log = sampleView.log ++ new
        ∧ emittedSignals new = [Signal.absGeometryChanged ⟨100, 1016, 1819, 1079⟩,
            Signal.coronaAvailableScreenRectChanged,
            Signal.coronaAvailableScreenRegionChanged])
      ∧ sampleViewSynced.updateAbsDockGeometry false = sampleViewSynced := by
  obtain ⟨new, hlog, hyes, -⟩ :=
    (updateAbsDockGeometry_signals sampleView false).2 (Or.inl (by decide))
  exact ⟨⟨new, hlog, hyes ⟨⟨_, rfl, rfl⟩, by decide⟩⟩,
    (updateAbsDockGeometry_signals sampleViewSynced false).1 (by decide) rfl⟩

/-! ## The Wayland surface lifecycle in `event` -/

/-- The function `event` on SurfaceAboutToBeDestroyed, for a view that is not in delete. -/
theorem event_surfaceAboutToBeDestroyed (v : View) (hlive : v.m_inDelete = false) :
    v.event (QEvent.PlatformSurface (some SurfaceEventType.SurfaceAboutToBeDestroyed))
      = if v.m_shellSurface.isSome then
          { v with
            m_shellSurface := none
            log := v.log ++ [
              Event.emitted (Signal.eventTriggered
                (QEvent.PlatformSurface (some SurfaceEventType.SurfaceAboutToBeDestroyed))),
              Event.called Call.deleteShellSurface,
              Event.called Call.effectsClearShadows,
              Event.called (Call.containmentViewEvent
                (QEvent.PlatformSurface (some SurfaceEventType.SurfaceAboutToBeDestroyed)))] }
        else
          { v with
            log := v.log ++ [
              Event.emitted (Signal.eventTriggered
                (QEvent.PlatformSurface (some SurfaceEventType.SurfaceAboutToBeDestroyed))),
              Event.called (Call.containmentViewEvent
                (QEvent.PlatformSurface (some SurfaceEventType.SurfaceAboutToBeDestroyed)))] } := by
  unfold event
  rw [if_pos hlive]
  simp only [emit]
  split <;> simp [call]

/-- The function `event` on SurfaceCreated when the setup can create the shell surface. -/
theorem event_surfaceCreated_available (w : View) (interface : PlasmaShell) (s : Surface)
    (hlive : w.m_inDelete = false) (hnone : w.m_shellSurface = none)
    (hcorona : w.corona = some (Corona.Latte (some interface)))
    (hsurface : w.windowSurface = some s) :
    w.event (QEvent.PlatformSurface (some SurfaceEventType.SurfaceCreated))
      = { w with
          m_shellSurface := some { surface := s, skipTaskbar := true, role := Role.Panel,
                                   panelBehavior := PanelBehavior.WindowsGoBelow }
          log := w.log ++ [
            Event.emitted (Signal.eventTriggered
              (QEvent.PlatformSurface (some SurfaceEventType.SurfaceCreated))),
            Event.called (Call.createSurface s),
            Event.called Call.positionerSyncGeometry,
            Event.called Call.effectsUpdateShadows,
            Event.called (Call.containmentViewEvent
              (QEvent.PlatformSurface (some SurfaceEventType.SurfaceCreated)))] } := by
  unfold event
  rw [if_pos hlive]
  simp only [emit, setupWaylandIntegration, hnone, hcorona, hsurface]
  simp [call, PlasmaShell.createSurface, PlasmaShellSurface.setSkipTaskbar,
    PlasmaShellSurface.setRole, PlasmaShellSurface.setPanelBehavior]

/-- The function `event` on SurfaceCreated when the setup cannot create the shell surface. -/
theorem event_surfaceCreated_unavailable (w : View)
    (hlive : w.m_inDelete = false) (hnone : w.m_shellSurface = none)
    (hun : ¬ ∃ interface s, w.corona = some (Corona.Latte (some interface))
              ∧ w.windowSurface = some s) :
    w.event (QEvent.PlatformSurface (some SurfaceEventType.SurfaceCreated))
      = { w with
          log := w.log ++ [
            Event.emitted (Signal.eventTriggered
              (QEvent.PlatformSurface (some SurfaceEventType.SurfaceCreated))),
            Event.called (Call.containmentViewEvent
              (QEvent.PlatformSurface (some SurfaceEventType.SurfaceCreated)))] } := by
  unfold event
  rw [if_pos hlive]
  simp only [emit, setupWaylandIntegration, hnone]
  cases hco : w.corona with
  | none => simp [call, hnone]
  | some co =>
    cases co with
    | Plasma => simp [call, hnone]
    | Latte wi =>
      cases wi with
      | none => simp [call, hnone]
      | some interface =>
        cases hs : w.windowSurface with
        | none => simp [call, hnone]
        | some s => exact absurd ⟨interface, s, hco, hs⟩ hun

/-- C9: for a view that is not in delete, after `event` has handled
SurfaceAboutToBeDestroyed `surface()` is null (and the view still is not in delete),
and the shadows were cleared exactly if a shell surface existed.  A SurfaceCreated
handled in any later state `w` without shell surface creates a new panel shell
surface whenever the Wayland interface and the window Surface are available, and
the geometry is synced and the shadows are updated exactly if a shell surface exists
after the setup. -/
theorem event_surface_lifecycle (v : View) (hlive : v.m_inDelete = false) :
    let destroyed :=
      v.event (QEvent.PlatformSurface (some SurfaceEventType.SurfaceAboutToBeDestroyed))
    destroyed.surface = none
      ∧ destroyed.m_inDelete = false
      ∧ (Call.effectsClearShadows ∈ collaboratorCalls (newEvents v.log destroyed.log)
          ↔ v.surface ≠ none)
      ∧ ∀ w : View, w.m_inDelete = false → w.surface = none →
          (∀ (interface : PlasmaShell) (s : Surface),
              w.corona = some (Corona.Latte (some interface)) → w.windowSurface = some s →
              (w.event (QEvent.PlatformSurface (some SurfaceEventType.SurfaceCreated))).surface
                  = some { surface := s, skipTaskbar := true, role := Role.Panel,
                           panelBehavior := PanelBehavior.WindowsGoBelow }
                ∧ Call.createSurface s ∈ collaboratorCalls (newEvents w.log
                    (w.event (QEvent.PlatformSurface
                      (some SurfaceEventType.SurfaceCreated))).log))
            ∧ (Call.positionerSyncGeometry ∈ collaboratorCalls (newEvents w.log
                  (w.event (QEvent.PlatformSurface (some SurfaceEventType.SurfaceCreated))).log)
                ↔ (w.event (QEvent.PlatformSurface
                      (some SurfaceEventType.SurfaceCreated))).surface ≠ none)
            ∧ (Call.effectsUpdateShadows ∈ collaboratorCalls (newEvents w.log
                  (w.event (QEvent.PlatformSurface (some SurfaceEventType.SurfaceCreated))).log)
                ↔ (w.event (QEvent.PlatformSurface
                      (some SurfaceEventType.SurfaceCreated))).surface ≠ none) := by
  intro destroyed
  have hd := event_surfaceAboutToBeDestroyed v hlive
  refine ⟨?_, ?_, ?_, ?_⟩
  · show destroyed.m_shellSurface = none
    show (v.event _).m_shellSurface = none
    rw [hd]
    cases h : v.m_shellSurface with
    | none => simp
    | some _ => simp
  · show (v.event _).m_inDelete = false
    rw [hd]
    split <;> exact hlive
  · show _ ∈ collaboratorCalls (newEvents v.log (v.event _).log) ↔ v.m_shellSurface ≠ none
    rw [hd]
    cases h : v.m_shellSurface with
    | none => simp [newEvents_append, collaboratorCalls]
    | some _ => simp [newEvents_append, collaboratorCalls]
  · intro w hwlive hwnone
    have hwnone1 : w.m_shellSurface = none := hwnone
    have havail : ∀ (interface : PlasmaShell) (s : Surface),
        w.corona = some (Corona.Latte (some interface)) → w.windowSurface = some s →
        (w.event (QEvent.PlatformSurface (some SurfaceEventType.SurfaceCreated))).surface
            = some { surface := s, skipTaskbar := true, role := Role.Panel,
                     panelBehavior := PanelBehavior.WindowsGoBelow }
          ∧ collaboratorCalls (newEvents w.log
              (w.event (QEvent.PlatformSurface (some SurfaceEventType.SurfaceCreated))).log)
              = [Call.createSurface s, Call.positionerSyncGeometry, Call.effectsUpdateShadows,
                  Call.containmentViewEvent
                    (QEvent.PlatformSurface (some SurfaceEventType.SurfaceCreated))] := by
      intro interface s hco hs
      rw [event_surfaceCreated_available w interface s hwlive hwnone1 hco hs]
      exact ⟨rfl, by simp [newEvents_append, collaboratorCalls]⟩
    by_cases hex : ∃ interface s, w.corona = some (Corona.Latte (some interface))
        ∧ w.windowSurface = some s
    · obtain ⟨interface, s, hco, hs⟩ := hex
      obtain ⟨hsurf, hcalls⟩ := havail interface s hco hs
      refine ⟨?_, ?_, ?_⟩
      · intro i2 s2 hco2 hs2
        obtain ⟨h1, h2⟩ := havail i2 s2 hco2 hs2
        exact ⟨h1, by rw [h2]; simp⟩
      · rw [hcalls, hsurf]
        simp
      · rw [hcalls, hsurf]
        simp
    · have hun := event_surfaceCreated_unavailable w hwlive hwnone1 hex
      refine ⟨?_, ?_, ?_⟩
      · intro i2 s2 hco2 hs2
        exact absurd ⟨i2, s2, hco2, hs2⟩ hex
      · rw [hun]
        simp [newEvents_append, collaboratorCalls, surface, hwnone1]
      · rw [hun]
        simp [newEvents_append, collaboratorCalls, surface, hwnone1]

/-- The Wayland dock loses its shell surface and gets a new one. -/
theorem event_surface_lifecycle_witness :
    waylandViewWithShell.m_inDelete = false
      ∧ (waylandViewWithShell.event
          (QEvent.PlatformSurface (some SurfaceEventType.SurfaceAboutToBeDestroyed))).surface
          = none
      ∧ ((waylandViewWithShell.event
            (QEvent.PlatformSurface (some SurfaceEventType.SurfaceAboutToBeDestroyed))).event
          (QEvent.PlatformSurface (some SurfaceEventType.SurfaceCreated))).surface
          = some { surface := { wlSurface := 21 }, skipTaskbar := true, role := Role.Panel,
                   panelBehavior := PanelBehavior.WindowsGoBelow } :=
  ⟨rfl, (event_surface_lifecycle waylandViewWithShell rfl).1,
    (((event_surface_lifecycle waylandViewWithShell rfl).2.2.2
        (waylandViewWithShell.event
          (QEvent.PlatformSurface (some SurfaceEventType.SurfaceAboutToBeDestroyed)))
        rfl rfl).1 { name := 3 } { wlSurface := 21 } rfl rfl).1⟩

/-! ## Blocking the hiding -/

/-- C10: `setBlockHiding(false)` leaves the view, and with it the visibility
manager's blockHiding, unchanged when alternativesIsShown is true or the config view
is a PrimaryConfigView that is sticky and visible; in every other case with a
visibility manager it sets the manager's blockHiding to false.  `setBlockHiding(true)`
sets the manager's blockHiding to true when a manager exists.  Without a visibility
manager both calls change nothing. -/
theorem setBlockHiding_spec (v : View) :
    (v.alternativesIsShown = true ∨ v.m_configView = some (ConfigView.Primary true true)
        → v.setBlockHiding false = v)
      ∧ (∀ vm, v.visibility = some vm → v.alternativesIsShown = false
          → v.m_configView ≠ some (ConfigView.Primary true true)
          → v.setBlockHiding false = { v with m_visibility := some (vm.setBlockHiding false) }
            ∧ (v.setBlockHiding false).visibility.map VisibilityManager.blockHiding
                = some false)
      ∧ (∀ vm, v.visibility = some vm
          → v.setBlockHiding true = { v with m_visibility := some (vm.setBlockHiding true) }
            ∧ (v.setBlockHiding true).visibility.map VisibilityManager.blockHiding
                = some true)
      ∧ (v.visibility = none → ∀ block, v.setBlockHiding block = v) := by
  refine ⟨?_, ?_, ?_, ?_⟩
  · intro h
    unfold setBlockHiding
    rcases h with h | h
    · have h1 : v.m_alternativesIsShown = true := h
      simp [h1]
    · simp [h]
  · intro vm hvm halt hcfg
    have hvm1 : v.m_visibility = some vm := hvm
    have halt1 : v.m_alternativesIsShown = false := halt
    have hstep : v.setBlockHiding false
        = { v with m_visibility := some (vm.setBlockHiding false) } := by
      unfold setBlockHiding
      cases hc : v.m_configView with
      | none => simp [halt1, hvm1]
      | some cv =>
        cases cv with
        | Plain vis => simp [halt1, hvm1]
        | Primary sticker vis =>
          cases sticker <;> cases vis
          · simp [halt1, hvm1]
          · simp [halt1, hvm1]
          · simp [halt1, hvm1]
          · exact absurd hc hcfg
    exact ⟨hstep, by rw [hstep]; rfl⟩
  · intro vm hvm
    have hvm1 : v.m_visibility = some vm := hvm
    have hstep : v.setBlockHiding true
        = { v with m_visibility := some (vm.setBlockHiding true) } := by
      unfold setBlockHiding
      simp [hvm1]
    exact ⟨hstep, by rw [hstep]; rfl⟩
  · intro hnone block
    have hnone1 : v.m_visibility = none := hnone
    unfold setBlockHiding
    cases block
    · simp only [if_true, hnone1]
      split <;> rfl
    · simp [hnone1]

/-- With the sticky settings window shown, unblocking is refused; without it, hiding
is unblocked; blocking always takes effect. -/
theorem setBlockHiding_spec_witness :
    sampleViewStickyConfig.setBlockHiding false = sampleViewStickyConfig
      ∧ (sampleViewStickyConfig.setBlockHiding false).visibility.map
          VisibilityManager.blockHiding = some true
      ∧ (sampleViewBlocked.setBlockHiding false).visibility.map
          VisibilityManager.blockHiding = some false
      ∧ (sampleView.setBlockHiding true).visibility.map
          VisibilityManager.blockHiding = some true
      ∧ ({ sampleView with m_visibility := none }).setBlockHiding true
          = { sampleView with m_visibility := none } :=
  ⟨(setBlockHiding_spec sampleViewStickyConfig).1 (Or.inr rfl),
    by rw [(setBlockHiding_spec sampleViewStickyConfig).1 (Or.inr rfl)]; rfl,
    ((setBlockHiding_spec sampleViewBlocked).2.1 _ rfl rfl (by decide)).2,
    ((setBlockHiding_spec sampleView).2.2.1 _ rfl).2,
    (setBlockHiding_spec { sampleView with m_visibility := none }).2.2.2 rfl true⟩

/-! ## The containment's status -/

/-- C11: `statusChanged` decides from the containment's current status and ignores
its argument.  With a containment whose status is NeedsAttentionStatus or higher and
not HiddenStatus it does what `setBlockHiding(true)` does; with a lower or hidden
status it does what `setBlockHiding(false)` does if the containment is not being
configured by the user, and changes nothing if it is; without a containment it
changes nothing. -/
theorem statusChanged_decides (v : View) (status : ItemStatus) :
    (∀ c, v.containment = some c
        → ItemStatus.NeedsAttentionStatus.toNat ≤ c.status.toNat
        → c.status ≠ ItemStatus.HiddenStatus
        → v.statusChanged status = v.setBlockHiding true)
      ∧ (∀ c, v.containment = some c
          → c.status.toNat < ItemStatus.NeedsAttentionStatus.toNat
              ∨ c.status = ItemStatus.HiddenStatus
          → c.isUserConfiguring = false
          → v.statusChanged status = v.setBlockHiding false)
      ∧ (∀ c, v.containment = some c
          → c.status.toNat < ItemStatus.NeedsAttentionStatus.toNat
              ∨ c.status = ItemStatus.HiddenStatus
          → c.isUserConfiguring = true
          → v.statusChanged status = v)
      ∧ (v.containment = none → v.statusChanged status = v)
      ∧ ∀ other : ItemStatus, v.statusChanged other = v.statusChanged status := by
  have hlow : ∀ c : Containment,
      c.status.toNat < ItemStatus.NeedsAttentionStatus.toNat
          ∨ c.status = ItemStatus.HiddenStatus
      → ¬ (c.status.toNat ≥ ItemStatus.NeedsAttentionStatus.toNat
            ∧ c.status ≠ ItemStatus.HiddenStatus) := by
    rintro c (h | h) ⟨h1, h2⟩
    · exact absurd h1 (Nat.not_le.mpr h)
    · exact h2 h
  refine ⟨?_, ?_, ?_, ?_, ?_⟩
  · intro c hc hge hne
    unfold statusChanged
    rw [hc]
    simp only
    rw [if_pos ⟨hge, hne⟩]
  · intro c hc hl hconf
    unfold statusChanged
    rw [hc]
    simp only
    rw [if_neg (hlow c hl), if_pos hconf]
  · intro c hc hl hconf
    unfold statusChanged
    rw [hc]
    simp only
    rw [if_neg (hlow c hl), if_neg (by rw [hconf]; decide)]
  · intro hnone
    unfold statusChanged
    rw [hnone]
  · intro other
    rfl

/-- An applet needs attention: hiding gets blocked, whatever status is passed.  A
passive containment that is not being configured: hiding is unblocked.  A hidden
containment that is being configured: nothing changes. -/
theorem statusChanged_decides_witness :
    (sampleViewNeedsAttention.statusChanged ItemStatus.PassiveStatus).visibility.map
        VisibilityManager.blockHiding = some true
      ∧ (sampleViewBlocked.statusChanged ItemStatus.NeedsAttentionStatus).visibility.map
          VisibilityManager.blockHiding = some false
      ∧ sampleViewConfiguring.statusChanged ItemStatus.HiddenStatus = sampleViewConfiguring
      ∧ ({ sampleView with containment := none }).statusChanged ItemStatus.ActiveStatus
          = { sampleView with containment := none } := by
  refine ⟨?_, ?_, ?_, ?_⟩
  · rw [(statusChanged_decides sampleViewNeedsAttention ItemStatus.PassiveStatus).1
      _ rfl (by decide) (by decide)]
    rfl
  · rw [(statusChanged_decides sampleViewBlocked ItemStatus.NeedsAttentionStatus).2.1
      _ rfl (Or.inl (by decide)) rfl]
    rfl
  · exact (statusChanged_decides sampleViewConfiguring ItemStatus.HiddenStatus).2.2.1
      _ rfl (Or.inr rfl) rfl
  · exact (statusChanged_decides { sampleView with containment := none }
      ItemStatus.ActiveStatus).2.2.2.1 rfl

/-! ## Showing the alternatives -/

/-- Blocking through the view reaches the visibility manager whenever there is one. -/
theorem setBlockHiding_true_visibility (v : View) (vm : VisibilityManager)
    (hvm : v.m_visibility = some vm) :
    (v.setBlockHiding true).m_visibility = some (vm.setBlockHiding true) := by
  unfold setBlockHiding
  simp [hvm]

/-- Unblocking through the view reaches the visibility manager when the alternatives
are not shown and no sticky visible PrimaryConfigView exists. -/
theorem setBlockHiding_false_visibility (v : View) (vm : VisibilityManager)
    (hvm : v.m_visibility = some vm) (halt : v.m_alternativesIsShown = false)
    (hcfg : v.m_configView ≠ some (ConfigView.Primary true true)) :
    (v.setBlockHiding false).m_visibility = some (vm.setBlockHiding false) := by
  unfold setBlockHiding
  cases hc : v.m_configView with
  | none => simp [halt, hvm]
  | some cv =>
    cases cv with
    | Plain vis => simp [halt, hvm]
    | Primary sticker vis =>
      cases sticker <;> cases vis
      · simp [halt, hvm]
      · simp [halt, hvm]
      · simp [halt, hvm]
      · exact absurd hc hcfg

/-- The view's `setBlockHiding` touches neither the log nor `m_alternativesIsShown`. -/
theorem setBlockHiding_frame (v : View) (block : Bool) :
    (v.setBlockHiding block).log = v.log
      ∧ (v.setBlockHiding block).m_alternativesIsShown = v.m_alternativesIsShown := by
  unfold setBlockHiding
  cases block
  · simp only [if_true]
    split
    · exact ⟨rfl, rfl⟩
    · split <;> exact ⟨rfl, rfl⟩
  · simp only [Bool.true_eq_false, if_false]
    split <;> exact ⟨rfl, rfl⟩

/-- C12: for a view with a visibility manager, `setAlternativesIsShown(true)` that
changes the value leaves the manager's blockHiding true, and
`setAlternativesIsShown(false)` that changes the value leaves it false whenever no
sticky visible PrimaryConfigView exists; each of them stores the new value and emits
alternativesIsShownChanged once.  A call with the current value returns the object
unchanged, so nothing is emitted. -/
theorem setAlternativesIsShown_blocks_and_releases (v : View) :
    (∀ vm, v.visibility = some vm → v.alternativesIsShown = false
        → (v.setAlternativesIsShown true).visibility.map VisibilityManager.blockHiding
            = some true
          ∧ (v.setAlternativesIsShown true).alternativesIsShown = true
          ∧ (v.setAlternativesIsShown true).log
              = v.log ++ [Event.emitted Signal.alternativesIsShownChanged])
      ∧ (∀ vm, v.visibility = some vm → v.alternativesIsShown = true
          → v.m_configView ≠ some (ConfigView.Primary true true)
          → (v.setAlternativesIsShown false).visibility.map VisibilityManager.blockHiding
              = some false
            ∧ (v.setAlternativesIsShown false).alternativesIsShown = false
            ∧ (v.setAlternativesIsShown false).log
                = v.log ++ [Event.emitted Signal.alternativesIsShownChanged])
      ∧ v.setAlternativesIsShown v.alternativesIsShown = v := by
  refine ⟨?_, ?_, ?_⟩
  · intro vm hvm halt
    have hvm1 : v.m_visibility = some vm := hvm
    have halt1 : v.m_alternativesIsShown = false := halt
    have hstep : v.setAlternativesIsShown true
        = (({ v with m_alternativesIsShown := true }).setBlockHiding true).emit
            Signal.alternativesIsShownChanged := by
      unfold setAlternativesIsShown
      rw [if_neg (by rw [halt1]; decide)]
    have hvis := setBlockHiding_true_visibility { v with m_alternativesIsShown := true } vm hvm1
    obtain ⟨hlog, halts⟩ := setBlockHiding_frame { v with m_alternativesIsShown := true } true
    rw [hstep]
    refine ⟨?_, ?_, ?_⟩
    · show Option.map VisibilityManager.blockHiding
          (({ v with m_alternativesIsShown := true }).setBlockHiding true).m_visibility = _
      rw [hvis]
      rfl
    · show (({ v with m_alternativesIsShown := true }).setBlockHiding true).m_alternativesIsShown
          = true
      rw [halts]
    · show (View.setBlockHiding { v with m_alternativesIsShown := true } true).log
          ++ [Event.emitted Signal.alternativesIsShownChanged]
            = v.log ++ [Event.emitted Signal.alternativesIsShownChanged]
      rw [hlog]
  · intro vm hvm halt hcfg
    have hvm1 : v.m_visibility = some vm := hvm
    have halt1 : v.m_alternativesIsShown = true := halt
    have hstep : v.setAlternativesIsShown false
        = (({ v with m_alternativesIsShown := false }).setBlockHiding false).emit
            Signal.alternativesIsShownChanged := by
      unfold setAlternativesIsShown
      rw [if_neg (by rw [halt1]; decide)]
    have hvis := setBlockHiding_false_visibility { v with m_alternativesIsShown := false } vm
      hvm1 rfl hcfg
    obtain ⟨hlog, halts⟩ := setBlockHiding_frame { v with m_alternativesIsShown := false } false
    rw [hstep]
    refine ⟨?_, ?_, ?_⟩
    · show Option.map VisibilityManager.blockHiding
          (({ v with m_alternativesIsShown := false }).setBlockHiding false).m_visibility = _
      rw [hvis]
      rfl
    · show (({ v with m_alternativesIsShown := false }).setBlockHiding
          false).m_alternativesIsShown = false
      rw [halts]
    · show (View.setBlockHiding { v with m_alternativesIsShown := false } false).log
          ++ [Event.emitted Signal.alternativesIsShownChanged]
            = v.log ++ [Event.emitted Signal.alternativesIsShownChanged]
      rw [hlog]
  · unfold setAlternativesIsShown
    exact if_pos rfl

/-- Showing the alternatives on the sample dock blocks hiding, closing them releases
it, and repeating the current value changes nothing. -/
theorem setAlternativesIsShown_blocks_and_releases_witness :
    (sampleView.setAlternativesIsShown true).visibility.map VisibilityManager.blockHiding
        = some true
      ∧ (sampleViewAlternatives.setAlternativesIsShown false).visibility.map
          VisibilityManager.blockHiding = some false
      ∧ (sampleViewAlternatives.setAlternativesIsShown false).log
          = [Event.emitted Signal.alternativesIsShownChanged]
      ∧ sampleViewAlternatives.setAlternativesIsShown true = sampleViewAlternatives :=
  ⟨((setAlternativesIsShown_blocks_and_releases sampleView).1 _ rfl rfl).1,
    ((setAlternativesIsShown_blocks_and_releases sampleViewAlternatives).2.1 _ rfl rfl
      (by decide)).1,
    ((setAlternativesIsShown_blocks_and_releases sampleViewAlternatives).2.1 _ rfl rfl
      (by decide)).2.2,
    (setAlternativesIsShown_blocks_and_releases sampleViewAlternatives).2.2⟩

end View

end Latte
